import Mathlib

/-!
Verification of `extract_flight_profiles.py` (xwakes flight-profile
extraction script).  The script's numeric pipeline is embedded shallowly:
numpy arrays become `List ℚ` (raw, possibly non-finite values become
`Option ℚ`, `none` standing for NaN/Inf), numpy reductions become total
Lean functions returning `Option` where numpy would produce NaN, and
the fatal numpy errors (`np.min` of an empty array, `int(nan)`) become
`Except.error` branches of the pipeline.
-/

/-- numpy-style indexed read: `x[i]` with default 0 (all code-relevant
reads are in bounds). -/
def getQ (x : List ℚ) (i : ℕ) : ℚ := x.getD i 0

/-- Elementwise negation, embedding `-alt`. -/
def negList (x : List ℚ) : List ℚ := x.map (fun q => -q)

/-- `np.mean` of a non-empty sequence: sum divided by length. -/
def npMean (l : List ℚ) : ℚ := l.sum / (l.length : ℚ)

/-- `np.mean`, with `none` standing for the NaN produced on an empty
sequence. -/
def npMeanOpt (l : List ℚ) : Option ℚ :=
  if l.isEmpty then none else some (npMean l)

/-- Python `int()` on a float: truncation toward zero. -/
def pyInt (q : ℚ) : ℤ := if 0 ≤ q then ⌊q⌋ else ⌈q⌉

/-- Zero-padding to width 3, embedding the format specifier used at the
final `print` (pad with zeros after the sign, no truncation). -/
def format03 (n : ℤ) : String :=
  let body := toString n.natAbs
  let sign := if n < 0 then "-" else ""
  if sign.length + body.length < 3 then
    sign ++ String.mk (List.replicate (3 - (sign.length + body.length)) '0') ++ body
  else
    sign ++ body

/-- Python slice `xs[a:b]`: half-open, clamped to the list's bounds. -/
def pySlice (xs : List ℚ) (a b : ℕ) : List ℚ := (xs.drop a).take (b - a)

/-! ### `scipy.signal.find_peaks` (as called by the script)

`find_peaks(x, height=h, prominence=p)` = local maxima of `x`
(plateaus reported at their midpoint, boundary samples excluded),
kept when the sample value is at least `h` and the peak prominence is
at least `p`.  The helpers below transcribe scipy's
`_local_maxima_1d` and `_peak_prominences` (with `wlen = None`),
with an explicit fuel argument bounding the scan length. -/

/-- Advance past a plateau of value `v`: first index `≥ i` that is
`≥ iMax` or holds a different value. -/
def scanAhead (x : List ℚ) (iMax : ℕ) (v : ℚ) : ℕ → ℕ → ℕ
  | 0, i => i
  | fuel + 1, i =>
    if i < iMax ∧ getQ x i = v then scanAhead x iMax v fuel (i + 1) else i

/-- Scan for local maxima between index 1 and `iMax - 1`, plateau
midpoints included, mirroring scipy's `_local_maxima_1d` loop. -/
def localMaximaAux (x : List ℚ) (iMax : ℕ) : ℕ → ℕ → List ℕ
  | 0, _ => []
  | fuel + 1, i =>
    if i < iMax then
      if getQ x (i - 1) < getQ x i then
        let iAhead := scanAhead x iMax (getQ x i) (x.length + 1) (i + 1)
        if getQ x iAhead < getQ x i then
          ((i + (iAhead - 1)) / 2) :: localMaximaAux x iMax fuel (iAhead + 1)
        else
          localMaximaAux x iMax fuel (i + 1)
      else
        localMaximaAux x iMax fuel (i + 1)
    else []

/-- All local maxima of a sequence (scipy `_local_maxima_1d`). -/
def localMaxima (x : List ℚ) : List ℕ :=
  localMaximaAux x (x.length - 1) (x.length + 1) 1

/-- Scan left from a peak while samples stay `≤` the peak value,
tracking the minimum seen (scipy left base search, `wlen = None`). -/
def leftMinAux (x : List ℚ) (xp : ℚ) : ℕ → ℕ → ℚ → ℚ
  | 0, _, cur => cur
  | fuel + 1, i, cur =>
    if getQ x i ≤ xp then
      if i = 0 then min cur (getQ x i)
      else leftMinAux x xp fuel (i - 1) (min cur (getQ x i))
    else cur

/-- Scan right from a peak while samples stay `≤` the peak value,
tracking the minimum seen. -/
def rightMinAux (x : List ℚ) (xp : ℚ) (n : ℕ) : ℕ → ℕ → ℚ → ℚ
  | 0, _, cur => cur
  | fuel + 1, i, cur =>
    if i < n ∧ getQ x i ≤ xp then
      rightMinAux x xp n fuel (i + 1) (min cur (getQ x i))
    else cur

/-- Prominence of the sample at index `p` (scipy `_peak_prominences`
with `wlen = None`): peak value minus the higher of the two flanking
base minima. -/
def promOf (x : List ℚ) (p : ℕ) : ℚ :=
  let xp := getQ x p
  xp - max (leftMinAux x xp (p + 1) p xp)
           (rightMinAux x xp x.length (x.length + 1) p xp)

/-- `scipy.signal.find_peaks(x, height, prominence)[0]`: local maxima
filtered by the height condition, then by the prominence condition. -/
def findPeaks (x : List ℚ) (height pr : ℚ) : List ℕ :=
  ((localMaxima x).filter (fun i => decide (height ≤ getQ x i))).filter
    (fun i => decide (pr ≤ promOf x i))

/-! ### Alternation pairing and duration filter -/

/-- Tagged extremum: `(index, tag)` with tag 1 for a maximum and 0 for
a minimum, exactly the tuples built at lines 100-101. -/
abbrev Extr := ℕ × ℕ

/-- Candidate pair of consecutive extrema (lines 107-109). -/
abbrev PairT := Extr × Extr

/-- Sort key order of `sorted(key=lambda tup: tup[0])`: compare
indices only. -/
def idxLe (a b : Extr) : Prop := a.1 ≤ b.1

instance : DecidableRel idxLe := fun a b => Nat.decLe a.1 b.1

instance : IsTotal Extr idxLe := ⟨fun a b => Nat.le_total a.1 b.1⟩

instance : IsTrans Extr idxLe := ⟨fun _ _ _ h h' => Nat.le_trans h h'⟩

/-- Merged extrema list: peaks tagged 1, valleys tagged 0, sorted
(stably) by index — lines 100-102. -/
def mamiOf (peaks vall : List ℕ) : List Extr :=
  List.insertionSort idxLe (peaks.map (fun p => (p, 1)) ++ vall.map (fun p => (p, 0)))

/-- Consecutive pairs of a list, i.e. Python
`zip(l[:-1], l[1:])`. -/
def consecPairs {α : Type} : List α → List (α × α)
  | [] => []
  | [_] => []
  | a :: b :: r => (a, b) :: consecPairs (b :: r)

/-- The `all_points` list (lines 106-109): consecutive pairs of the
merged extrema list whose tags differ. -/
def allPointsOf (peaks vall : List ℕ) : List PairT :=
  (consecPairs (mamiOf peaks vall)).filter (fun o => decide (o.1.2 ≠ o.2.2))

/-- Span of a candidate pair, `j[0] - i[0]` as a rational (numpy
promotes the integer spans to float when averaging). -/
def spanQ (o : PairT) : ℚ := (o.2.1 : ℚ) - (o.1.1 : ℚ)

/-- Duration filter (lines 119-120): mean span over all candidate
pairs, then keep pairs of span strictly below it.  An empty candidate
list gives mean NaN, against which every `<` comparison is false, so
the result is empty. -/
def durationFilter (ps : List PairT) : List PairT :=
  match npMeanOpt (ps.map spanQ) with
  | none => []
  | some m => ps.filter (fun o => decide (spanQ o < m))

/-! ### Segment aggregation (lines 123-138 and 167) -/

/-- One output row: start time, end time, mean lat, lon, wspd, wdir
(the means are `none` when numpy would produce NaN on an empty
slice). -/
abbrev Row := ℚ × ℚ × Option ℚ × Option ℚ × Option ℚ × Option ℚ

/-- The `zip(points, lats, lons, wspds, wdirs)` comprehension of line
167, stopping at the shortest list like Python `zip`. -/
def zipRows (time : List ℚ) :
    List PairT → List (Option ℚ) → List (Option ℚ) → List (Option ℚ) →
    List (Option ℚ) → List Row
  | p :: ps, la :: las, lo :: los, w :: ws, d :: ds =>
    (getQ time p.1.1, getQ time p.2.1, la, lo, w, d) :: zipRows time ps las los ws ds
  | _, _, _, _, _ => []

/-- Rows of the text report: per retained pair, the slice means of the
four value series (loop of lines 127-138) zipped with the pair's
endpoint times (line 167). -/
def segRows (time lat lon wspd wdir : List ℚ) (points : List PairT) : List Row :=
  zipRows time points
    (points.map (fun o => npMeanOpt (pySlice lat o.1.1 o.2.1)))
    (points.map (fun o => npMeanOpt (pySlice lon o.1.1 o.2.1)))
    (points.map (fun o => npMeanOpt (pySlice wspd o.1.1 o.2.1)))
    (points.map (fun o => npMeanOpt (pySlice wdir o.1.1 o.2.1)))

/-! ### Raw input, NaN filtering and the full pipeline (lines 63-173) -/

/-- Six raw sample series as loaded from the input file; `none` stands
for a non-finite entry (NaN or Inf). -/
structure RawInput where
  alt : List (Option ℚ)
  lat : List (Option ℚ)
  lon : List (Option ℚ)
  time : List (Option ℚ)
  wdir : List (Option ℚ)
  wspd : List (Option ℚ)

/-- `np.isfinite` applied elementwise (lines 74-79). -/
def finMask (xs : List (Option ℚ)) : List Bool := xs.map Option.isSome

/-- Elementwise conjunction of two boolean masks (the `&` of line 81). -/
def andMask : List Bool → List Bool → List Bool := List.zipWith and

/-- The combined finiteness mask of line 81. -/
def jointMask (inp : RawInput) : List Bool :=
  andMask (andMask (andMask (andMask (andMask
    (finMask inp.alt) (finMask inp.lat)) (finMask inp.lon))
    (finMask inp.time)) (finMask inp.wdir)) (finMask inp.wspd)

/-- numpy boolean-mask indexing `xs[mask]` (lines 84-89); the kept
entries are finite, so their values are read off directly. -/
def boolIndex (xs : List (Option ℚ)) (m : List Bool) : List ℚ :=
  (xs.zip m).filterMap (fun q => if q.2 then some (q.1.getD 0) else none)

/-- The six arrays must share one length for the elementwise `&` and
mask indexing of lines 81-89 to be defined. -/
def lengthsOk (inp : RawInput) : Bool :=
  decide (inp.lat.length = inp.alt.length) &&
  decide (inp.lon.length = inp.alt.length) &&
  decide (inp.time.length = inp.alt.length) &&
  decide (inp.wdir.length = inp.alt.length) &&
  decide (inp.wspd.length = inp.alt.length)

/-- Filtered altitude series (line 84). -/
def maskedAlt (inp : RawInput) : List ℚ := boolIndex inp.alt (jointMask inp)

/-- Filtered latitude series (line 85). -/
def maskedLat (inp : RawInput) : List ℚ := boolIndex inp.lat (jointMask inp)

/-- Filtered longitude series (line 86). -/
def maskedLon (inp : RawInput) : List ℚ := boolIndex inp.lon (jointMask inp)

/-- Filtered time series (line 87). -/
def maskedTime (inp : RawInput) : List ℚ := boolIndex inp.time (jointMask inp)

/-- Filtered wind-direction series (line 88). -/
def maskedWdir (inp : RawInput) : List ℚ := boolIndex inp.wdir (jointMask inp)

/-- Filtered wind-speed series (line 89). -/
def maskedWspd (inp : RawInput) : List ℚ := boolIndex inp.wspd (jointMask inp)

/-- Peak indices (line 95): `find_peaks(alt, height=800, prominence=50)`. -/
def pipePeaks (inp : RawInput) : List ℕ := findPeaks (maskedAlt inp) 800 50

/-- Valley indices (line 96):
`find_peaks(-alt, height=-100, prominence=50)`. -/
def pipeVally (inp : RawInput) : List ℕ :=
  findPeaks (negList (maskedAlt inp)) (-100) 50

/-- Candidate pairs of the pipeline (lines 100-109). -/
def pipePairs (inp : RawInput) : List PairT :=
  allPointsOf (pipePeaks inp) (pipeVally inp)

/-- Retained pairs after the duration filter (lines 119-120). -/
def pipePoints (inp : RawInput) : List PairT := durationFilter (pipePairs inp)

/-- Rows of the text report for this input (lines 127-138 and 167). -/
def pipeRows (inp : RawInput) : List Row :=
  segRows (maskedTime inp) (maskedLat inp) (maskedLon inp)
    (maskedWspd inp) (maskedWdir inp) (pipePoints inp)

/-- Result of a full run: the rows written to the text report paired
with the final printed summary string. -/
abbrev PipeOut := List Row × String

/-- numpy error raised by the elementwise `&` of line 81 on arrays of
differing shapes. -/
def shapeMsg : String := "operands could not be broadcast together"

/-- numpy error raised by `np.min` of the empty filtered altitude
array at line 115. -/
def zeroSizeMsg : String :=
  "zero-size array to reduction operation minimum which has no identity"

/-- Python error raised by `int(a_mean)` at line 173 when the mean is
NaN. -/
def nanIntMsg : String := "cannot convert float NaN to integer"

/-- The whole computation of lines 63-173: mask the six series, locate
peaks and valleys, pair and filter them, aggregate the report rows, and
print the truncated mean wind direction.  `np.min(alt)` at line 115
fails on a zero-sample input before the report is written; the list
comprehension at line 172 drops NaNs from the already-filtered `wdir`,
which contains none, so it is the identity there. -/
def runPipeline (inp : RawInput) : Except String PipeOut :=
  if lengthsOk inp = false then .error shapeMsg
  else if (maskedAlt inp).isEmpty then .error zeroSizeMsg
  else
    match npMeanOpt (maskedWdir inp) with
    | none => .error nanIntMsg
    | some q => .ok ⟨pipeRows inp, format03 (pyInt q)⟩

/-! ### Concrete inputs used as witnesses and counterexamples -/

/-- An all-finite input from six equal-length plain lists. -/
def mkFinInput (alt lat lon time wdir wspd : List ℚ) : RawInput :=
  ⟨alt.map some, lat.map some, lon.map some, time.map some,
   wdir.map some, wspd.map some⟩

/-- The six-sequence input with no samples at all. -/
def emptyInput : RawInput := ⟨[], [], [], [], [], []⟩

/-- Altitude profile with two qualifying peaks (indices 1 and 4) and
one qualifying valley (index 2), giving candidate pairs of unequal
spans. -/
def alt6 : List ℚ := [0, 900, 50, 60, 900, 0]

def time6 : List ℚ := [0, 1, 2, 3, 4, 5]

def lat6 : List ℚ := [10, 10, 10, 10, 10, 10]

def lon6 : List ℚ := [20, 20, 20, 20, 20, 20]

def wspd6 : List ℚ := [5, 6, 7, 8, 9, 10]

def wdir6 : List ℚ := [10, 20, 30, 40, 50, 60]

/-- Fully finite six-series input built over `alt6`. -/
def ex6 : RawInput := mkFinInput alt6 lat6 lon6 time6 wdir6 wspd6

/-- Flat input: no extrema at all, hence zero candidate pairs. -/
def ex3 : RawInput :=
  mkFinInput [0, 0, 0] [10, 10, 10] [20, 20, 20] [0, 1, 2] [1, 2, 3] [4, 4, 4]

/-- Input whose wind-direction mean is 5/3: truncation gives 1 while
rounding to nearest gives 2. -/
def c2in : RawInput :=
  mkFinInput [0, 0, 5] [10, 10, 10] [20, 20, 20] [0, 1, 2] [0, 0, 5] [4, 4, 4]

/-- Input with a finite wind direction (100) at an index whose
altitude is NaN: the raw column means 150, the jointly filtered
column means 200. -/
def c3in : RawInput :=
  ⟨[none, some 5], [some 10, some 10], [some 20, some 20],
   [some 0, some 1], [some 100, some 200], [some 4, some 4]⟩

/-- Concrete candidate list with spans 1 and 2 (mean 3/2). -/
def ps0 : List PairT := [((1, 1), (2, 0)), ((2, 0), (4, 1))]

/-- Retained-pair list over the `ex6` series used to witness C7. -/
def pts1 : List PairT := [((1, 1), (2, 0))]

/-! ### Spec-side definitions (used to compare spec wording with the
code on refinement claims) -/

/-- Following the spec's words for the summary input: the raw
wind-direction column with only its own non-finite values excluded. -/
def specSelfFiniteWdir (xs : List (Option ℚ)) : List ℚ := xs.filterMap id

/-- Six-way joint filter: keep the wind-direction value of a sample
exactly when all six entries at its position are finite.  This is the
per-sample reading of the validity filter, stated independently of the
mask/boolean-indexing mechanics of lines 74-89. -/
def specJointFilter : List (Option ℚ) → List (Option ℚ) → List (Option ℚ) →
    List (Option ℚ) → List (Option ℚ) → List (Option ℚ) → List ℚ
  | a :: as, b :: bs, c :: cs, d :: ds, e :: es, f :: fs =>
    if (((((a.isSome && b.isSome) && c.isSome) && d.isSome) && e.isSome) && f.isSome) then
      e.getD 0 :: specJointFilter as bs cs ds es fs
    else specJointFilter as bs cs ds es fs
  | _, _, _, _, _, _ => []

/-- The combined mask of line 81 as a function of the six raw
columns. -/
def jm6 (a b c d e f : List (Option ℚ)) : List Bool :=
  andMask (andMask (andMask (andMask (andMask
    (finMask a) (finMask b)) (finMask c)) (finMask d)) (finMask e)) (finMask f)

/-! ### Helper lemmas -/

/-- Reading the negated series is negating the read (default 0 is
fixed by negation). -/
theorem getQ_negList (x : List ℚ) (i : ℕ) : getQ (negList x) i = -(getQ x i) := by
  induction x generalizing i with
  | nil => simp [getQ, negList]
  | cons a t ih =>
    cases i with
    | zero => simp [getQ, negList]
    | succ j => simpa [getQ, negList] using ih j

/-- Every index output by `findPeaks` passes the height and prominence
conditions it was filtered by. -/
theorem mem_findPeaks {x : List ℚ} {h p : ℚ} {i : ℕ} (hi : i ∈ findPeaks x h p) :
    h ≤ getQ x i ∧ p ≤ promOf x i := by
  simp only [findPeaks, List.mem_filter, decide_eq_true_eq] at hi
  exact ⟨hi.1.2, hi.2⟩

/-- Both ends of a consecutive pair belong to the underlying list. -/
theorem consecPairs_mem {α : Type} {l : List α} {a b : α}
    (hm : (a, b) ∈ consecPairs l) : a ∈ l ∧ b ∈ l := by
  induction l with
  | nil => simp [consecPairs] at hm
  | cons x t ih =>
    cases t with
    | nil => simp [consecPairs] at hm
    | cons y rest =>
      rw [consecPairs, List.mem_cons] at hm
      rcases hm with h | h
      · have h1 : a = x ∧ b = y := by simpa [Prod.ext_iff] using h
        rcases h1 with ⟨rfl, rfl⟩
        exact ⟨List.mem_cons_self _ _, List.mem_cons_of_mem _ (List.mem_cons_self _ _)⟩
      · obtain ⟨ha, hb⟩ := ih h
        exact ⟨List.mem_cons_of_mem _ ha, List.mem_cons_of_mem _ hb⟩

/-- In a pairwise-related list, consecutive elements are related. -/
theorem pairwise_consecPairs {α : Type} {r : α → α → Prop} {l : List α} {a b : α}
    (hp : List.Pairwise r l) (hm : (a, b) ∈ consecPairs l) : r a b := by
  induction l with
  | nil => simp [consecPairs] at hm
  | cons x t ih =>
    cases t with
    | nil => simp [consecPairs] at hm
    | cons y rest =>
      rw [consecPairs, List.mem_cons] at hm
      rcases hm with h | h
      · have h1 : a = x ∧ b = y := by simpa [Prod.ext_iff] using h
        rcases h1 with ⟨rfl, rfl⟩
        exact (List.pairwise_cons.mp hp).1 b (List.mem_cons_self _ _)
      · exact ih (List.pairwise_cons.mp hp).2 h

/-- The merged extrema list is sorted by index. -/
theorem mamiOf_sorted (peaks vall : List ℕ) :
    List.Sorted idxLe (mamiOf peaks vall) :=
  List.sorted_insertionSort idxLe _

/-- Membership in the merged extrema list. -/
theorem mem_mamiOf {peaks vall : List ℕ} {A : Extr} :
    A ∈ mamiOf peaks vall ↔
      A ∈ peaks.map (fun p => (p, 1)) ++ vall.map (fun p => (p, 0)) :=
  List.mem_insertionSort idxLe

/-- `np.mean` of a non-empty sequence is its exact arithmetic mean. -/
theorem npMeanOpt_eq {l : List ℚ} (h : l ≠ []) : npMeanOpt l = some (npMean l) := by
  rw [npMeanOpt, if_neg]
  simp [List.isEmpty_iff, h]

/-- Mean of a non-empty constant sequence is that constant, exactly. -/
theorem npMeanOpt_const {l : List ℚ} {c : ℚ} (h0 : l ≠ [])
    (hc : ∀ x ∈ l, x = c) : npMeanOpt l = some c := by
  have hs : ∀ t : List ℚ, (∀ x ∈ t, x = c) → t.sum = c * t.length := by
    intro t
    induction t with
    | nil => simp
    | cons x r ih =>
      intro hx
      have hxc : x = c := hx x (List.mem_cons_self _ _)
      have hr := ih (fun y hy => hx y (List.mem_cons_of_mem _ hy))
      simp [List.sum_cons, hr, hxc]
      ring
  have hlen : (l.length : ℚ) ≠ 0 := by
    have : l.length ≠ 0 := fun hz => h0 (List.length_eq_zero.mp hz)
    exact_mod_cast this
  rw [npMeanOpt_eq h0, npMean, hs l hc]
  congr 1
  field_simp

/-- The duration filter only drops candidates; order is preserved. -/
theorem durationFilter_sublist (ps : List PairT) :
    (durationFilter ps).Sublist ps := by
  rw [durationFilter]
  cases npMeanOpt (ps.map spanQ) with
  | none => exact List.nil_sublist ps
  | some m => exact List.filter_sublist ps

/-- Equal-length source arrays keep equal lengths under the same
boolean mask. -/
theorem boolIndex_length_eq :
    ∀ (m : List Bool) (xs ys : List (Option ℚ)), xs.length = ys.length →
      (boolIndex xs m).length = (boolIndex ys m).length
  | [], xs, ys, _ => by simp [boolIndex]
  | _ :: _, [], ys, h => by
    have : ys = [] := List.length_eq_zero.mp h.symm
    subst this
    simp [boolIndex]
  | _ :: _, _ :: _, [], h => by simp at h
  | b :: m, x :: xs, y :: ys, h => by
    have ht := boolIndex_length_eq m xs ys (Nat.succ_injective h)
    cases b <;> simp [boolIndex, List.filterMap_cons] at * <;> simpa using ht

/-- Every element of a Python slice `l[a:b]` is a value of `l` at an
index in the half-open range `[a, b)`. -/
theorem mem_pySlice {l : List ℚ} {a b : ℕ} {x : ℚ} (hx : x ∈ pySlice l a b) :
    ∃ i, a ≤ i ∧ i < b ∧ i < l.length ∧ x = l.getD i 0 := by
  rw [pySlice] at hx
  obtain ⟨j, hj, hget⟩ := List.mem_iff_getElem.mp hx
  have hj1 : j < b - a ∧ j < l.length - a := by
    have := hj
    simp [List.length_take, List.length_drop] at this
    omega
  have hlt : a + j < l.length := by omega
  refine ⟨a + j, Nat.le_add_right _ _, by omega, hlt, ?_⟩
  rw [List.getElem_take, List.getElem_drop] at hget
  rw [List.getD_eq_getElem?_getD, List.getElem?_eq_getElem hlt]
  simpa using hget.symm

/-- Zipping the four per-pair mean lists back with the pair list is a
single map over the pairs. -/
theorem zipRows_map (time : List ℚ) (ps : List PairT)
    (f1 f2 f3 f4 : PairT → Option ℚ) :
    zipRows time ps (ps.map f1) (ps.map f2) (ps.map f3) (ps.map f4) =
      ps.map (fun o => (getQ time o.1.1, getQ time o.2.1, f1 o, f2 o, f3 o, f4 o)) := by
  induction ps with
  | nil => rfl
  | cons o t ih => simp [zipRows, List.map_cons, ih]

/-- `segRows` rewritten as one map over the retained pairs. -/
theorem segRows_eq_map (time lat lon wspd wdir : List ℚ) (points : List PairT) :
    segRows time lat lon wspd wdir points =
      points.map (fun o =>
        (getQ time o.1.1, getQ time o.2.1,
         npMeanOpt (pySlice lat o.1.1 o.2.1), npMeanOpt (pySlice lon o.1.1 o.2.1),
         npMeanOpt (pySlice wspd o.1.1 o.2.1), npMeanOpt (pySlice wdir o.1.1 o.2.1))) := by
  rw [segRows, zipRows_map]

/-- Unfolded form of `lengthsOk`. -/
theorem lengthsOk_iff {inp : RawInput} :
    lengthsOk inp = true ↔
      inp.lat.length = inp.alt.length ∧ inp.lon.length = inp.alt.length ∧
      inp.time.length = inp.alt.length ∧ inp.wdir.length = inp.alt.length ∧
      inp.wspd.length = inp.alt.length := by
  simp [lengthsOk, Bool.and_eq_true, decide_eq_true_eq, and_assoc]

/-- On equal-length inputs the filtered wind-direction series has the
same length as the filtered altitude series. -/
theorem maskedWdir_length {inp : RawInput} (h1 : lengthsOk inp = true) :
    (maskedWdir inp).length = (maskedAlt inp).length := by
  have h := (lengthsOk_iff.mp h1).2.2.2.1
  exact boolIndex_length_eq (jointMask inp) inp.wdir inp.alt h

/-- On equal-length inputs with at least one fully finite sample, the
pipeline succeeds and prints the truncated mean of the jointly
filtered wind-direction series. -/
theorem pipeline_ok {inp : RawInput} (h1 : lengthsOk inp = true)
    (h2 : maskedAlt inp ≠ []) :
    runPipeline inp =
      .ok ⟨pipeRows inp, format03 (pyInt (npMean (maskedWdir inp)))⟩ := by
  have hw : maskedWdir inp ≠ [] := by
    intro hz
    apply h2
    have := maskedWdir_length h1
    rw [hz] at this
    exact List.length_eq_zero.mp this.symm
  rw [runPipeline, h1]
  simp only [Bool.true_eq_false, if_false]
  rw [if_neg (by simp [List.isEmpty_iff, h2]), npMeanOpt_eq hw]

/-- `jointMask` is `jm6` on the six fields. -/
theorem jointMask_eq_jm6 (inp : RawInput) :
    jointMask inp = jm6 inp.alt inp.lat inp.lon inp.time inp.wdir inp.wspd := rfl

/-- Head step of the combined mask on six cons cells. -/
theorem jm6_cons (a0 b0 c0 d0 e0 f0 : Option ℚ) (as bs cs ds es fs : List (Option ℚ)) :
    jm6 (a0 :: as) (b0 :: bs) (c0 :: cs) (d0 :: ds) (e0 :: es) (f0 :: fs) =
      ((((((a0.isSome && b0.isSome) && c0.isSome) && d0.isSome) && e0.isSome) && f0.isSome)
        :: jm6 as bs cs ds es fs) := by
  simp [jm6, andMask, finMask]

/-- Head step of boolean-mask indexing. -/
theorem boolIndex_cons (x : Option ℚ) (xs : List (Option ℚ)) (m0 : Bool) (ms : List Bool) :
    boolIndex (x :: xs) (m0 :: ms) =
      if m0 then x.getD 0 :: boolIndex xs ms else boolIndex xs ms := by
  cases m0 <;> simp [boolIndex, List.filterMap_cons]

/-- The masked wind-direction series of the code equals the six-way
joint filter. -/
theorem boolIndex_jointMask :
    ∀ a b c d e f : List (Option ℚ),
      boolIndex e (jm6 a b c d e f) = specJointFilter a b c d e f
  | [], b, c, d, e, f => by
    simp [jm6, boolIndex, finMask, andMask, List.zip_nil_right, specJointFilter]
  | _ :: _, [], c, d, e, f => by
    simp [jm6, boolIndex, finMask, andMask, List.zip_nil_right, specJointFilter]
  | _ :: _, _ :: _, [], d, e, f => by
    simp [jm6, boolIndex, finMask, andMask, List.zip_nil_right, specJointFilter]
  | _ :: _, _ :: _, _ :: _, [], e, f => by
    simp [jm6, boolIndex, finMask, andMask, List.zip_nil_right, specJointFilter]
  | _ :: _, _ :: _, _ :: _, _ :: _, [], f => by
    simp [jm6, boolIndex, finMask, andMask, List.zip_nil_right, specJointFilter]
  | _ :: _, _ :: _, _ :: _, _ :: _, _ :: _, [] => by
    simp [jm6, boolIndex, finMask, andMask, List.zip_nil_right, specJointFilter]
  | a0 :: as, b0 :: bs, c0 :: cs, d0 :: ds, e0 :: es, f0 :: fs => by
    have ih := boolIndex_jointMask as bs cs ds es fs
    rw [jm6_cons, boolIndex_cons, ih, specJointFilter]

/-! ### Claim theorems -/

/-- Claim C1, counterexample: on the six-empty-sequence input
(trivially empty after NaN filtering) the pipeline does not produce an
empty report — `np.min` of the empty filtered altitude array at line
115 raises, so the run ends in an error and no report is written. -/
theorem C1_counterexample : runPipeline emptyInput = .error zeroSizeMsg := by
  with_unfolding_all rfl

/-- Claim C1 as amended: for every equal-length input whose six
sequences are empty after the validity (NaN) filtering step, the
program raises the zero-size-reduction error at the plot-bounds
computation (line 115) instead of producing an empty report. -/
theorem C1_zero_samples (inp : RawInput) (h1 : lengthsOk inp = true)
    (h2 : maskedAlt inp = []) : runPipeline inp = .error zeroSizeMsg := by
  rw [runPipeline, h1]
  simp [h2]

/-- Witness for C1: the amended theorem applied to the concrete
all-empty input. -/
theorem C1_witness :
    lengthsOk emptyInput = true ∧ maskedAlt emptyInput = [] ∧
      runPipeline emptyInput = .error zeroSizeMsg :=
  ⟨rfl, rfl, C1_zero_samples emptyInput rfl rfl⟩

/-- Claim C2, counterexample: on an all-finite input with
wind-direction values 0, 0, 5 the mean is 5/3; the script prints
"001" (truncation by `int()` at line 173), while rounding to the
nearest integer would print "002". -/
theorem C2_counterexample :
    runPipeline c2in = .ok ⟨[], "001"⟩ ∧
      npMeanOpt (maskedWdir c2in) = some (5 / 3) ∧
      format03 (round ((5 : ℚ) / 3)) = "002" ∧ "001" ≠ "002" :=
  ⟨by with_unfolding_all rfl, by with_unfolding_all rfl,
   by with_unfolding_all decide, by decide⟩

/-- Claim C2 as amended: the printed summary is the zero-padded
3-digit rendering of the mean wind direction truncated toward zero by
`int()`, not rounded to nearest. -/
theorem C2_truncated_mean (inp : RawInput) (h1 : lengthsOk inp = true)
    (h2 : maskedAlt inp ≠ []) :
    runPipeline inp =
      .ok ⟨pipeRows inp, format03 (pyInt (npMean (maskedWdir inp)))⟩ :=
  pipeline_ok h1 h2

/-- Witness for C2: the amended theorem applied to the concrete input
with mean wind direction 5/3. -/
theorem C2_witness :
    lengthsOk c2in = true ∧ maskedAlt c2in ≠ [] ∧
      runPipeline c2in =
        .ok ⟨pipeRows c2in, format03 (pyInt (npMean (maskedWdir c2in)))⟩ :=
  ⟨rfl, by with_unfolding_all decide,
   C2_truncated_mean c2in rfl (by with_unfolding_all decide)⟩

/-- Claim C3, counterexample: on an input whose first sample has a
finite wind direction (100) but a NaN altitude, the script prints
"200" (mean of the jointly filtered column), while the mean over the
wind-direction values that are themselves finite is 150, which would
print "150". -/
theorem C3_counterexample :
    runPipeline c3in = .ok ⟨[], "200"⟩ ∧
      npMeanOpt (specSelfFiniteWdir c3in.wdir) = some 150 ∧
      format03 (round ((150 : ℚ))) = "150" ∧ "200" ≠ "150" :=
  ⟨by with_unfolding_all rfl, by with_unfolding_all rfl,
   by with_unfolding_all decide, by decide⟩

/-- Claim C3 as amended: the sequence the summary mean is computed
over is the jointly filtered wind-direction column — a sample's
wind-direction value contributes exactly when all six values at its
index are finite, not merely when the wind-direction value itself
is. -/
theorem C3_joint_filtered_mean (inp : RawInput) :
    maskedWdir inp =
      specJointFilter inp.alt inp.lat inp.lon inp.time inp.wdir inp.wspd := by
  rw [maskedWdir, jointMask_eq_jm6]
  exact boolIndex_jointMask inp.alt inp.lat inp.lon inp.time inp.wdir inp.wspd

/-- Claim C4: a candidate pair is emitted by the alternation-pairing
step iff its two extrema are consecutive in the index-sorted merged
extrema list and their kinds differ (tags 1 = MAX, 0 = MIN), for every
pair of peak/valley index lists; in particular no equal-kind pair ever
appears. -/
theorem C4_alternation_pairing (peaks vall : List ℕ) (A B : Extr) :
    (A, B) ∈ allPointsOf peaks vall ↔
      (A, B) ∈ consecPairs (mamiOf peaks vall) ∧ A.2 ≠ B.2 := by
  simp [allPointsOf, List.mem_filter]

/-- Claim C5: for a non-empty candidate list, a pair is retained by
the duration filter iff its span is strictly below the arithmetic mean
of all candidate spans computed before any filtering, and the retained
list is an order-preserving sublist of the candidates. -/
theorem C5_duration_filter (ps : List PairT) (hne : ps ≠ []) :
    (∀ o : PairT,
        o ∈ durationFilter ps ↔ o ∈ ps ∧ spanQ o < npMean (ps.map spanQ)) ∧
      (durationFilter ps).Sublist ps := by
  constructor
  · intro o
    have hm : ps.map spanQ ≠ [] := by simp [hne]
    rw [durationFilter, npMeanOpt_eq hm]
    simp [List.mem_filter]
  · exact durationFilter_sublist ps

/-- Witness for C5: the filter characterization applied to the
concrete pair list `ps0`. -/
theorem C5_witness :
    (((1, 1), (2, 0)) ∈ durationFilter ps0 ↔
        ((1, 1), (2, 0)) ∈ ps0 ∧ spanQ ((1, 1), (2, 0)) < npMean (ps0.map spanQ)) ∧
      (durationFilter ps0).Sublist ps0 :=
  ⟨(C5_duration_filter ps0 (by simp [ps0])).1 ((1, 1), (2, 0)),
   (C5_duration_filter ps0 (by simp [ps0])).2⟩

/-- Claim C6: an empty candidate list short-circuits the duration
filter to an empty output (the NaN mean compares false against every
span), and on any equal-length input with samples left but no
candidate pairs the pipeline still succeeds and writes an empty
report. -/
theorem C6_zero_pairs :
    durationFilter [] = [] ∧
      ∀ inp : RawInput, lengthsOk inp = true → maskedAlt inp ≠ [] →
        pipePairs inp = [] →
        runPipeline inp = .ok ⟨[], format03 (pyInt (npMean (maskedWdir inp)))⟩ := by
  refine ⟨rfl, fun inp h1 h2 h3 => ?_⟩
  have hrows : pipeRows inp = [] := by
    rw [pipeRows, pipePoints, h3]
    rfl
  rw [pipeline_ok h1 h2, hrows]

/-- Witness for C6: the pipeline on the flat input `ex3` (no extrema,
hence no candidate pairs) produces an empty row list. -/
theorem C6_witness :
    lengthsOk ex3 = true ∧ maskedAlt ex3 ≠ [] ∧ pipePairs ex3 = [] ∧
      runPipeline ex3 = .ok ⟨[], format03 (pyInt (npMean (maskedWdir ex3)))⟩ :=
  ⟨rfl, by with_unfolding_all decide, by with_unfolding_all decide,
   C6_zero_pairs.2 ex3 rfl (by with_unfolding_all decide)
     (by with_unfolding_all decide)⟩

/-- Claim C9: the computation from loaded sample series to report
contents and printed summary is deterministic — equal inputs produce
equal pipeline outputs. -/
theorem C9_deterministic (a b : RawInput) (h : a = b) :
    runPipeline a = runPipeline b := by rw [h]

/-- Witness for C9: determinism applied to the concrete input
`ex6`. -/
theorem C9_witness : runPipeline ex6 = runPipeline ex6 :=
  C9_deterministic ex6 ex6 rfl

/-- Claim C7: every retained pair (s, k1), (e, k2) yields the report
row (time[s], time[e], mean lat[s:e], mean lon[s:e], mean wspd[s:e],
mean wdir[s:e]) — the averaging window is the half-open Python slice
[s, e) — and over an in-range non-empty window of constant latitude 10
and longitude 20 the means are exactly 10 and 20. -/
theorem C7_segment_agg (time lat lon wspd wdir : List ℚ) (points : List PairT)
    (o : PairT) (ho : o ∈ points) :
    (getQ time o.1.1, getQ time o.2.1,
       npMeanOpt (pySlice lat o.1.1 o.2.1), npMeanOpt (pySlice lon o.1.1 o.2.1),
       npMeanOpt (pySlice wspd o.1.1 o.2.1), npMeanOpt (pySlice wdir o.1.1 o.2.1))
        ∈ segRows time lat lon wspd wdir points ∧
      (o.1.1 < o.2.1 → o.2.1 ≤ lat.length →
        (∀ i, o.1.1 ≤ i → i < o.2.1 → lat.getD i 0 = 10) →
        npMeanOpt (pySlice lat o.1.1 o.2.1) = some 10) ∧
      (o.1.1 < o.2.1 → o.2.1 ≤ lon.length →
        (∀ i, o.1.1 ≤ i → i < o.2.1 → lon.getD i 0 = 20) →
        npMeanOpt (pySlice lon o.1.1 o.2.1) = some 20) := by
  have hconst : ∀ (l : List ℚ) (c : ℚ), o.1.1 < o.2.1 → o.2.1 ≤ l.length →
      (∀ i, o.1.1 ≤ i → i < o.2.1 → l.getD i 0 = c) →
      npMeanOpt (pySlice l o.1.1 o.2.1) = some c := by
    intro l c hlt hle hc
    apply npMeanOpt_const
    · intro hz
      have hlen : (pySlice l o.1.1 o.2.1).length =
          min (o.2.1 - o.1.1) (l.length - o.1.1) := by
        simp [pySlice, List.length_take, List.length_drop]
      rw [hz] at hlen
      simp at hlen
      omega
    · intro x hx
      obtain ⟨i, hi1, hi2, _, hxi⟩ := mem_pySlice hx
      rw [hxi]
      exact hc i hi1 hi2
  refine ⟨?_, hconst lat 10, hconst lon 20⟩
  rw [segRows_eq_map]
  exact List.mem_map_of_mem _ ho

/-- Witness for C7: the aggregation row of the retained pair
((1,1),(2,0)) over the constant-latitude/longitude series. -/
theorem C7_witness :
    (getQ time6 1, getQ time6 2,
       npMeanOpt (pySlice lat6 1 2), npMeanOpt (pySlice lon6 1 2),
       npMeanOpt (pySlice wspd6 1 2), npMeanOpt (pySlice wdir6 1 2))
        ∈ segRows time6 lat6 lon6 wspd6 wdir6 pts1 ∧
      npMeanOpt (pySlice lat6 1 2) = some 10 ∧
      npMeanOpt (pySlice lon6 1 2) = some 20 := by
  obtain ⟨h1, h2, h3⟩ :=
    C7_segment_agg time6 lat6 lon6 wspd6 wdir6 pts1 ((1, 1), (2, 0))
      (by simp [pts1])
  refine ⟨h1, h2 (by decide) (by decide) ?_, h3 (by decide) (by decide) ?_⟩ <;>
    · intro i hi1 hi2
      have hi1' : 1 ≤ i := hi1
      have hi2' : i < 2 := hi2
      have : i = 1 := by omega
      subst this
      rfl

/-- Claim C8: every index reported as a peak has altitude at least 800
and prominence at least 50, and every index reported as a valley has
altitude at most 100 and prominence (on the negated sequence) at least
50, for any altitude sequence. -/
theorem C8_extrema (alt : List ℚ) (i : ℕ) :
    (i ∈ findPeaks alt 800 50 → 800 ≤ getQ alt i ∧ 50 ≤ promOf alt i) ∧
      (i ∈ findPeaks (negList alt) (-100) 50 →
        getQ alt i ≤ 100 ∧ 50 ≤ promOf (negList alt) i) := by
  refine ⟨fun h => mem_findPeaks h, fun h => ?_⟩
  obtain ⟨hh, hp⟩ := mem_findPeaks h
  rw [getQ_negList] at hh
  exact ⟨by linarith, hp⟩

/-- Witness for C8: the peak at index 1 and the valley at index 2 of
the concrete altitude profile `alt6`. -/
theorem C8_witness :
    (1 ∈ findPeaks alt6 800 50 ∧ 800 ≤ getQ alt6 1 ∧ 50 ≤ promOf alt6 1) ∧
      (2 ∈ findPeaks (negList alt6) (-100) 50 ∧
        getQ alt6 2 ≤ 100 ∧ 50 ≤ promOf (negList alt6) 2) := by
  have h1 : 1 ∈ findPeaks alt6 800 50 := by with_unfolding_all decide
  have h2 : 2 ∈ findPeaks (negList alt6) (-100) 50 := by with_unfolding_all decide
  exact ⟨⟨h1, (C8_extrema alt6 1).1 h1⟩, ⟨h2, (C8_extrema alt6 2).2 h2⟩⟩

/-- Claim C10 (implicit): every candidate pair, and hence every
retained pair, has strictly increasing indices — a peak (altitude
≥ 800) can never share an index with a valley (altitude ≤ 100), and
the merged list is index-sorted, so consecutive differing-kind extrema
are strictly ordered; the averaging window [s, e) is never empty. -/
theorem C10_start_lt_end (alt : List ℚ) (A B : Extr) :
    ((A, B) ∈ allPointsOf (findPeaks alt 800 50)
        (findPeaks (negList alt) (-100) 50) → A.1 < B.1) ∧
      ((A, B) ∈ durationFilter (allPointsOf (findPeaks alt 800 50)
        (findPeaks (negList alt) (-100) 50)) → A.1 < B.1) := by
  have main : (A, B) ∈ allPointsOf (findPeaks alt 800 50)
      (findPeaks (negList alt) (-100) 50) → A.1 < B.1 := by
    intro h
    rw [allPointsOf, List.mem_filter, decide_eq_true_eq] at h
    obtain ⟨hc, hne⟩ := h
    have hle0 : idxLe A B := pairwise_consecPairs (mamiOf_sorted _ _) hc
    have hle : A.1 ≤ B.1 := hle0
    rcases Nat.lt_or_ge A.1 B.1 with hlt | hge
    · exact hlt
    exfalso
    have heq : A.1 = B.1 := Nat.le_antisymm hle hge
    have hmemA := (consecPairs_mem hc).1
    have hmemB := (consecPairs_mem hc).2
    rw [mem_mamiOf] at hmemA hmemB
    simp only [List.mem_append, List.mem_map] at hmemA hmemB
    have peak_high : ∀ n : ℕ, n ∈ findPeaks alt 800 50 → 800 ≤ getQ alt n :=
      fun n hn => (mem_findPeaks hn).1
    have vall_low : ∀ n : ℕ, n ∈ findPeaks (negList alt) (-100) 50 →
        getQ alt n ≤ 100 := by
      intro n hn
      have := (mem_findPeaks hn).1
      rw [getQ_negList] at this
      linarith
    rcases hmemA with ⟨pa, hpa, ha⟩ | ⟨pa, hpa, ha⟩ <;>
      rcases hmemB with ⟨pb, hpb, hb⟩ | ⟨pb, hpb, hb⟩ <;>
        rw [← ha, ← hb] at hne heq <;> simp only at hne heq
    · exact hne rfl
    · have h800 := peak_high pa hpa
      have h100 := vall_low pb hpb
      rw [heq] at h800
      linarith
    · have h800 := peak_high pb hpb
      have h100 := vall_low pa hpa
      rw [heq] at h100
      linarith
    · exact hne rfl
  exact ⟨main, fun h => main ((durationFilter_sublist _).subset h)⟩

/-- Witness for C10: the candidate and retained pair ((1,1),(2,0)) of
the concrete profile `alt6` has start index 1 < end index 2. -/
theorem C10_witness :
    (((1, 1), (2, 0)) ∈ allPointsOf (findPeaks alt6 800 50)
        (findPeaks (negList alt6) (-100) 50) ∧ (1 : ℕ) < 2) ∧
      (((1, 1), (2, 0)) ∈ durationFilter (allPointsOf (findPeaks alt6 800 50)
        (findPeaks (negList alt6) (-100) 50)) ∧ (1 : ℕ) < 2) := by
  have h1 : ((1, 1), (2, 0)) ∈ allPointsOf (findPeaks alt6 800 50)
      (findPeaks (negList alt6) (-100) 50) := by with_unfolding_all decide
  have h2 : ((1, 1), (2, 0)) ∈ durationFilter (allPointsOf (findPeaks alt6 800 50)
      (findPeaks (negList alt6) (-100) 50)) := by with_unfolding_all decide
  exact ⟨⟨h1, (C10_start_lt_end alt6 (1, 1) (2, 0)).1 h1⟩,
    ⟨h2, (C10_start_lt_end alt6 (1, 1) (2, 0)).2 h2⟩⟩
